import Mathlib

/-
Verification of the concurrent camera-session management subsystem of
src/app.py (a Flask crowd-monitoring server).  The Python module-level
dictionaries (active_cameras, camera_queues, camera_threads,
camera_captures, camera_last_update, mobile_devices) are modelled as
association lists keyed by strings; the camera_worker loop, the
get_camera_status endpoint, the disconnect_camera endpoint and the
check_mobile_camera_health monitor are modelled as pure state-passing
functions translated line by line from the source.  Wall-clock times are
modelled as natural numbers; the float comparison
people_count > capacity * 0.8 is modelled exactly as
5 * people_count > 4 * capacity.
-/

-- ===== Definitions =====

/-- A Python dict keyed by strings, as an association list. -/
abbrev Dict (α : Type) : Type := List (String × α)

namespace Dict

/-- Python d.get(k) / `k in d` lookup. -/
def find {α : Type} : Dict α → String → Option α
  | [], _ => none
  | p :: t, k => if p.1 = k then some p.2 else find t k

/-- Python `del d[k]` (no-op when the key is absent, matching the guarded
`if k in d: del d[k]` idiom used throughout app.py). -/
def erase {α : Type} : Dict α → String → Dict α
  | [], _ => []
  | p :: t, k => if p.1 = k then erase t k else p :: erase t k

/-- Python `d[k] = v`. -/
def insert {α : Type} (m : Dict α) (k : String) (v : α) : Dict α :=
  (k, v) :: erase m k

/-- Python `d.keys()`. -/
def keys {α : Type} (m : Dict α) : List String := m.map Prod.fst

end Dict

/-- Gate metadata record from GATE_CONFIG (app.py lines 38-46). -/
structure GateInfo where
  capacity : Nat
  name : String
  position : String
deriving DecidableEq, Repr

/-- GATE_CONFIG from app.py lines 38-46. -/
def GATE_CONFIG : Dict GateInfo :=
  [("A", ⟨200, "Gate A", "top"⟩),
   ("B", ⟨300, "Gate B", "left-top"⟩),
   ("C", ⟨250, "Gate C", "right-top"⟩),
   ("D", ⟨350, "Gate D", "left-bottom"⟩),
   ("E", ⟨300, "Gate E", "right-bottom"⟩),
   ("F", ⟨400, "Gate F", "bottom"⟩)] ++
  [("Temple", ⟨1000, "Temple Area", "center"⟩)]

/-- The key iteration order of GATE_CONFIG (Python dict insertion order). -/
def gate_keys : List String := Dict.keys GATE_CONFIG

/-- PROCESS_EVERY_N_FRAMES = 2 (app.py line 60). -/
def PROCESS_EVERY_N_FRAMES : Nat := 2

/-- max_retries = 10 (app.py line 242). -/
def max_retries : Nat := 10

/-- Occupancy classification from camera_worker, app.py lines 290-294:
status = normal; if people_count > capacity: overcrowded;
elif people_count > capacity * 0.8: warning.  The float threshold
capacity * 0.8 is modelled exactly: people_count > capacity * 0.8 iff
5 * people_count > 4 * capacity (for the integer counts and capacities
involved the double-precision comparison agrees with the exact one). -/
def occupancy_status (people_count capacity : Nat) : String :=
  if people_count > capacity then "overcrowded"
  else if 5 * people_count > 4 * capacity then "warning"
  else "normal"

/-- A message placed on a per-gate queue.  The Python code puts plain dicts;
keys that a given put may omit are modelled as Option fields, and the
consumer reads them with the same defaults as data.get(k, default). -/
structure QMsg where
  count : Nat
  status : String
  frame : Option String
  timestamp : Option Nat
  error : Option String
  is_mobile : Option Bool
deriving DecidableEq, Repr

/-- The message published by camera_worker for a processed frame
(app.py lines 307-313).  The preview payload and timestamp are abstracted
to fixed values, as no claim depends on them. -/
def result_msg (people_count capacity : Nat) : QMsg :=
  ⟨people_count, occupancy_status people_count capacity, some "", some 0, none, some false⟩

/-- The terminal message published when max retries are exceeded
(app.py lines 260-264). -/
def disconnect_msg : QMsg :=
  ⟨0, "disconnected", none, none, some "Camera stream disconnected. Please reconnect.", none⟩

/-- The message published on an uncaught exception inside the worker loop
(app.py lines 323-328). -/
def exc_msg (e : String) : QMsg :=
  ⟨0, "disconnected", none, none, some ("Camera error: " ++ e), none⟩

/-- One observable event of the camera_worker read loop: a successful
cap.read(), a failed cap.read(), or an uncaught exception raised inside
the loop body. -/
inductive ReadEvent where
  | ok : ReadEvent
  | fail : ReadEvent
  | exc : String → ReadEvent
deriving DecidableEq, Repr

/-- The local state of one camera_worker loop (app.py lines 241-318):
retry_count, frame_count, the number of detection calls made so far, the
messages published so far, and whether the loop has exited (via break or
exception). -/
structure WState where
  retry_count : Nat
  frame_count : Nat
  detections : Nat
  published : List QMsg
  exited : Bool
deriving DecidableEq, Repr

/-- The worker state at loop entry: retry_count = 0 (line 241),
frame_count = 0 (line 156). -/
def WState.start : WState := ⟨0, 0, 0, [], false⟩

/-- One iteration of the camera_worker loop that reaches cap.read()
(app.py lines 252-315), given the outcome of the read.  detect is the
detection adapter indexed by the number of prior detection calls, and
capacity = GATE_CONFIG[gate_id].capacity. -/
def camera_worker_step (capacity : Nat) (detect : Nat → Nat) (s : WState) (e : ReadEvent) : WState :=
  if s.exited then s else
  match e with
  | ReadEvent.fail =>
      if s.retry_count + 1 > max_retries then
        { retry_count := s.retry_count + 1, frame_count := s.frame_count,
          detections := s.detections,
          published := s.published ++ [disconnect_msg], exited := true }
      else
        { retry_count := s.retry_count + 1, frame_count := s.frame_count,
          detections := s.detections, published := s.published, exited := false }
  | ReadEvent.ok =>
      if (s.frame_count + 1) % PROCESS_EVERY_N_FRAMES = 0 then
        { retry_count := 0, frame_count := s.frame_count + 1,
          detections := s.detections + 1,
          published := s.published ++ [result_msg (detect s.detections) capacity],
          exited := false }
      else
        { retry_count := 0, frame_count := s.frame_count + 1,
          detections := s.detections, published := s.published, exited := false }
  | ReadEvent.exc msg =>
      { retry_count := s.retry_count, frame_count := s.frame_count,
        detections := s.detections,
        published := s.published ++ [exc_msg msg], exited := true }

/-- Run the camera_worker loop over a sequence of read outcomes; once the
loop has exited, the remaining events are ignored. -/
def camera_worker_run (capacity : Nat) (detect : Nat → Nat)
    (events : List ReadEvent) (s : WState) : WState :=
  events.foldl (camera_worker_step capacity detect) s

/-- The finally block of camera_worker (app.py lines 329-336): if the gate
has a registered capture handle, release it and delete the bookkeeping
entry.  Handles are modelled as naturals; the released list records every
handle on which .release() was called. -/
def camera_captures_release (gate_id : String) (camera_captures : Dict Nat)
    (released : List Nat) : Dict Nat × List Nat :=
  match Dict.find camera_captures gate_id with
  | some cap => (Dict.erase camera_captures gate_id, released ++ [cap])
  | none => (camera_captures, released)

/-- A full camera_worker execution after the capture opened successfully:
register the handle (line 240), run the loop, then run the finally block
unconditionally - covering every termination path (events exhausted models
the session being deactivated; the loop can also exit by exhausting
retries or by an uncaught exception). -/
def camera_worker_full_run (gate_id : String) (cap capacity : Nat)
    (detect : Nat → Nat) (events : List ReadEvent)
    (camera_captures : Dict Nat) : WState × Dict Nat × List Nat :=
  let captures1 := Dict.insert camera_captures gate_id cap
  let ws := camera_worker_run capacity detect events WState.start
  let fin := camera_captures_release gate_id captures1 []
  (ws, fin.1, fin.2)

/-- A MobileRegistration entry of mobile_devices (app.py lines 402-407
and 441-447). -/
structure MDev where
  stream_url : String
  device_name : Option String
  registered_at : Option Nat
  camera_type : String
deriving DecidableEq, Repr

/-- The module-level shared state of app.py (lines 48-56): the five
per-gate session bookkeeping dicts plus the mobile-device registry. -/
structure SState where
  active_cameras : Dict Bool
  camera_queues : Dict (List QMsg)
  camera_threads : Dict Nat
  camera_captures : Dict Nat
  camera_last_update : Dict Nat
  mobile_devices : Dict MDev
deriving DecidableEq, Repr

/-- The state at module load: all dicts empty. -/
def SState.start : SState := ⟨[], [], [], [], [], []⟩

/-- One entry of the JSON object built by get_camera_status (app.py lines
523-545).  Keys that may be absent are Option fields. -/
structure StatusEntry where
  connected : Bool
  count : Nat
  status : String
  frame : String
  camera_type : String
  error : String
  device_name : Option String
  timestamp : Option Nat
  is_mobile : Option Bool
deriving DecidableEq, Repr

/-- The default entry built at app.py lines 523-535, before the queue is
examined: connected reflects active_cameras, camera_type and device_name
reflect mobile_devices, all other fields are the defaults. -/
def status_entry_base (g : String) (s : SState) : StatusEntry :=
  { connected := (Dict.find s.active_cameras g).getD false,
    count := 0, status := "disconnected", frame := "",
    camera_type := if (Dict.find s.mobile_devices g).isSome then "mobile" else "webcam",
    error := "",
    device_name := (Dict.find s.mobile_devices g).map
      (fun m => m.device_name.getD "Mobile Device"),
    timestamp := none, is_mobile := none }

/-- The body of the get_camera_status loop for one gate (app.py lines
519-548): skip Temple; build the default entry; when the queue is present
and non-empty, drain one message, overwrite the entry fields with its
values (with the same defaults as data.get) and refresh
camera_last_update. -/
def get_camera_status_step (now : Nat) (acc : Dict StatusEntry × SState) (g : String) :
    Dict StatusEntry × SState :=
  if g = "Temple" then acc else
  match Dict.find acc.2.camera_queues g with
  | some (msg :: rest) =>
      (acc.1 ++ [(g, { status_entry_base g acc.2 with
         count := msg.count, status := msg.status,
         frame := msg.frame.getD "",
         timestamp := some (msg.timestamp.getD now),
         error := msg.error.getD "",
         is_mobile := some (msg.is_mobile.getD false) })],
       { acc.2 with camera_queues := Dict.insert acc.2.camera_queues g rest,
                    camera_last_update := Dict.insert acc.2.camera_last_update g now })
  | _ => (acc.1 ++ [(g, status_entry_base g acc.2)], acc.2)

/-- The fold of get_camera_status_step over a key list. -/
def get_camera_status_fold (now : Nat) (ks : List String)
    (acc : Dict StatusEntry × SState) : Dict StatusEntry × SState :=
  ks.foldl (get_camera_status_step now) acc

/-- get_camera_status (app.py lines 515-552): iterate over the
GATE_CONFIG keys in insertion order, returning the status object and the
updated shared state. -/
def get_camera_status (now : Nat) (s : SState) : Dict StatusEntry × SState :=
  get_camera_status_fold now gate_keys ([], s)

/-- A gate whose Result Channel would not be drained by get_camera_status:
the queue is either absent or empty. -/
def queue_absent_or_empty (s : SState) (g : String) : Prop :=
  Dict.find s.camera_queues g = none ∨ Dict.find s.camera_queues g = some []

/-- The teardown sequence shared by both disconnect paths (app.py lines
468-485 and 490-507): set the active flag false, join with a bounded
timeout (join_ok records whether the worker joined in time; its value is
discarded, exactly as the code ignores the join outcome), then delete the
five bookkeeping entries.  The mobile_devices registry is not touched. -/
def teardown_gate (g : String) (join_ok : Bool) (s : SState) : SState :=
  let _ := join_ok
  { active_cameras := Dict.erase (Dict.insert s.active_cameras g false) g,
    camera_queues := Dict.erase s.camera_queues g,
    camera_threads := Dict.erase s.camera_threads g,
    camera_captures := Dict.erase s.camera_captures g,
    camera_last_update := Dict.erase s.camera_last_update g,
    mobile_devices := s.mobile_devices }

/-- disconnect_camera with gate_id = "all" (app.py lines 466-487):
iterate over a snapshot of the active_cameras keys and tear each gate
down. -/
def disconnect_camera_all (join_ok : String → Bool) (s : SState) : SState :=
  (Dict.keys s.active_cameras).foldl (fun st g => teardown_gate g (join_ok g) st) s

/-- disconnect_camera for a single gate (app.py lines 488-509): tear the
gate down only when it is present in active_cameras. -/
def disconnect_camera_single (g : String) (join_ok : Bool) (s : SState) : SState :=
  if (Dict.find s.active_cameras g).isSome then teardown_gate g join_ok s else s

/-- The staleness test of the health monitor (app.py line 347): gate_id in
camera_last_update and current_time - camera_last_update[gate_id] > 10. -/
def stale_at (now : Nat) (lu : Option Nat) : Bool :=
  match lu with
  | some t => decide (10 < now - t)
  | none => false

/-- One gate of a check_mobile_camera_health pass (app.py lines 342-362):
if the gate is active, its queue is present and empty, and its last update
is stale, restart the session - stop flag false, join, fresh queue, flag
true, new worker thread.  The restart count in the accumulator records how
many restarts (one teardown plus one fresh worker each) the pass
performed.  The restart path does not touch camera_last_update. -/
def check_mobile_camera_health_step (now : Nat) (acc : SState × Nat) (g : String) :
    SState × Nat :=
  if (Dict.find acc.1.active_cameras g).getD false
      && decide (Dict.find acc.1.camera_queues g = some ([] : List QMsg))
      && stale_at now (Dict.find acc.1.camera_last_update g) then
    ({ acc.1 with
       active_cameras := Dict.insert (Dict.insert acc.1.active_cameras g false) g true,
       camera_queues := Dict.insert acc.1.camera_queues g [],
       camera_threads := Dict.insert acc.1.camera_threads g acc.2 },
     acc.2 + 1)
  else acc

/-- One pass of the check_mobile_camera_health loop body (app.py lines
342-363): iterate over a snapshot of the mobile_devices keys. -/
def check_mobile_camera_health_pass (now : Nat) (s : SState) : SState × Nat :=
  (Dict.keys s.mobile_devices).foldl (check_mobile_camera_health_step now) (s, 0)

/-- A registered mobile camera for gate A. -/
def mdev_A : MDev := ⟨"http://192.168.0.2:8080/video", some "Phone", some 0, "mobile"⟩

/-- A state with one active mobile session for gate A whose queue is
present and empty and whose last update was at time 0: the situation the
Health Monitor is meant to recover from. -/
def stale_mobile_state : SState :=
  ⟨[("A", true)], [("A", [])], [("A", 0)], [], [("A", 0)], [("A", mdev_A)]⟩

/-- Program counter of one camera_worker thread for one gate, reduced to
the points relevant to session handover: about to evaluate the loop
condition at app.py line 244 (checking), past the condition and about to
read, process and publish (publishing), or returned (done). -/
inductive WPc where
  | checking : WPc
  | publishing : WPc
  | done : WPc
deriving DecidableEq, Repr

/-- One worker thread for the gate, identified by spawn order. -/
structure CWorker where
  wid : Nat
  pc : WPc
deriving DecidableEq, Repr

/-- The shared state relevant to one gate during connect handover: the
active_cameras[g] flag, the successive Queue objects installed as
camera_queues[g] (the last list is the current queue; each publication
records the id of the publishing worker), the worker threads spawned for
the gate, and the next worker id. -/
structure ConnSys where
  active : Bool
  queues : List (List Nat)
  workers : List CWorker
  next_id : Nat
deriving DecidableEq, Repr

def conn_start : ConnSys := ⟨false, [], [], 0⟩

/-- Append a publication to the current (most recently installed) queue;
when no queue exists the put is skipped, matching the guard
`if gate_id in camera_queues` at app.py line 288. -/
def append_to_current : List (List Nat) → Nat → List (List Nat)
  | [], _ => []
  | [q], x => [q ++ [x]]
  | q :: qs, x => q :: append_to_current qs x

def set_pc (i : Nat) (p : WPc) (ws : List CWorker) : List CWorker :=
  ws.map (fun w => if w.wid = i then ⟨w.wid, p⟩ else w)

/-- One scheduler step of the worker thread with id i.  At checking it
evaluates `gate_id in active_cameras and active_cameras[gate_id]` (app.py
line 244) and either proceeds or returns; at publishing it performs the
read/detect/publish body, putting its id into whatever Queue object
camera_queues[gate_id] currently holds (line 307), then loops. -/
def worker_thread_step (s : ConnSys) (i : Nat) : ConnSys :=
  match s.workers.find? (fun w => w.wid == i) with
  | none => s
  | some w =>
    match w.pc with
    | WPc.done => s
    | WPc.checking =>
        if s.active then { s with workers := set_pc i WPc.publishing s.workers }
        else { s with workers := set_pc i WPc.done s.workers }
    | WPc.publishing =>
        { s with workers := set_pc i WPc.checking s.workers,
                 queues := append_to_current s.queues i }

/-- The first half of connect_camera (app.py lines 392-395): clear the
active flag; the join with its bounded timeout is the interval before
conn_finish, during which the old worker may or may not get scheduled. -/
def conn_begin (s : ConnSys) : ConnSys := { s with active := false }

/-- The second half of connect_camera (app.py lines 397-414): install a
fresh Queue object, set the active flag, spawn a new worker thread. -/
def conn_finish (s : ConnSys) : ConnSys :=
  { active := true, queues := s.queues ++ [[]],
    workers := s.workers ++ [⟨s.next_id, WPc.checking⟩],
    next_id := s.next_id + 1 }

/-- An interleaved execution: connect halves and worker scheduler steps. -/
inductive ConnAct where
  | cbegin : ConnAct
  | cfinish : ConnAct
  | wstep : Nat → ConnAct
deriving DecidableEq, Repr

def conn_exec (acts : List ConnAct) (s : ConnSys) : ConnSys :=
  acts.foldl (fun st a =>
    match a with
    | ConnAct.cbegin => conn_begin st
    | ConnAct.cfinish => conn_finish st
    | ConnAct.wstep i => worker_thread_step st i) s

/-- Worker threads that have not returned. -/
def live_workers (s : ConnSys) : Nat :=
  (s.workers.filter (fun w => decide (w.pc ≠ WPc.done))).length

def current_queue_of : List (List Nat) → List Nat
  | [] => []
  | [q] => q
  | _ :: qs => current_queue_of qs

/-- The contents of the Queue object currently installed for the gate. -/
def current_queue (s : ConnSys) : List Nat := current_queue_of s.queues

/-- What a status query would drain: queue.get_nowait() on the current
queue (app.py line 539). -/
def status_drain (s : ConnSys) : Option Nat := (current_queue s).head?

/-- Connect, let the first worker pass the loop condition and publish
once, then a second Connect whose join succeeds: the first worker observes
the cleared flag and returns before the new session is installed. -/
def joined_trace : List ConnAct :=
  [ConnAct.cbegin, ConnAct.cfinish, ConnAct.wstep 0, ConnAct.wstep 0,
   ConnAct.cbegin, ConnAct.wstep 0, ConnAct.cfinish]

def s_joined : ConnSys := conn_exec joined_trace conn_start

/-- The configuration after a teardown handshake in which the old worker
joined: worker 0 has returned, worker 1 is live, the stale publication
sits in the replaced queue, and the current queue holds only worker 1
publications. -/
def conn_isolated (s : ConnSys) : Prop :=
  s.active = true ∧ s.next_id = 2 ∧
  (∃ p, p ≠ WPc.done ∧ s.workers = [⟨0, WPc.done⟩, ⟨1, p⟩]) ∧
  (∃ q, (∀ x ∈ q, x = 1) ∧ s.queues = [[0], q])

-- ===== Theorems =====

namespace Dict

theorem find_insert_self {α : Type} (m : Dict α) (k : String) (v : α) :
    find (insert m k v) k = some v := by
  simp [insert, find]

theorem keys_cons {α : Type} (p : String × α) (t : Dict α) :
    keys (p :: t) = p.1 :: keys t := rfl

theorem find_erase_ne {α : Type} (m : Dict α) (k k' : String) (h : k' ≠ k) :
    find (erase m k) k' = find m k' := by
  induction m with
  | nil => rfl
  | cons p t ih =>
    by_cases hpk : p.1 = k
    · have hpk' : ¬ p.1 = k' := by rw [hpk]; exact fun hh => h hh.symm
      have hkk' : ¬ k = k' := fun hh => h hh.symm
      simp [erase, hpk, find, hpk', hkk', ih]
    · simp [erase, hpk, find, ih]

theorem find_erase_self {α : Type} (m : Dict α) (k : String) :
    find (erase m k) k = none := by
  induction m with
  | nil => rfl
  | cons p t ih =>
    by_cases hpk : p.1 = k
    · simp [erase, hpk, ih]
    · simp [erase, hpk, find, ih]

theorem find_insert_ne {α : Type} (m : Dict α) (k k' : String) (v : α) (h : k' ≠ k) :
    find (insert m k v) k' = find m k' := by
  have hk : ¬ k = k' := fun hh => h hh.symm
  simp [insert, find, hk, find_erase_ne m k k' h]

theorem erase_erase_self {α : Type} (m : Dict α) (k : String) :
    erase (erase m k) k = erase m k := by
  induction m with
  | nil => rfl
  | cons p t ih =>
    by_cases hpk : p.1 = k
    · simp [erase, hpk, ih]
    · simp [erase, hpk, ih]

theorem erase_insert {α : Type} (m : Dict α) (k : String) (v : α) :
    erase (insert m k v) k = erase m k := by
  simp [insert, erase, erase_erase_self]

theorem find_eq_none_of_not_mem_keys {α : Type} (m : Dict α) (k : String)
    (h : k ∉ keys m) : find m k = none := by
  induction m with
  | nil => rfl
  | cons p t ih =>
    rw [keys_cons] at h
    simp only [List.mem_cons, not_or] at h
    simp only [find, if_neg (fun hh : p.1 = k => h.1 hh.symm)]
    exact ih h.2

theorem isSome_find_of_mem_keys {α : Type} (m : Dict α) (k : String)
    (h : k ∈ keys m) : (find m k).isSome = true := by
  induction m with
  | nil => simp [keys] at h
  | cons p t ih =>
    rw [keys_cons] at h
    simp only [List.mem_cons] at h
    by_cases hpk : p.1 = k
    · simp [find, hpk]
    · rcases h with h | h
      · exact absurd h.symm hpk
      · simp only [find, if_neg hpk]
        exact ih h

theorem find_append_left {α : Type} (m m' : Dict α) (k : String) (v : α)
    (h : find m k = some v) : find (m ++ m') k = some v := by
  induction m with
  | nil => simp [find] at h
  | cons p t ih =>
    by_cases hpk : p.1 = k
    · simp [find, hpk] at h ⊢; exact h
    · simp [find, hpk] at h ⊢; exact ih h

theorem find_append_right {α : Type} (m m' : Dict α) (k : String)
    (h : find m k = none) : find (m ++ m') k = find m' k := by
  induction m with
  | nil => simp
  | cons p t ih =>
    by_cases hpk : p.1 = k
    · simp [find, hpk] at h
    · simp [find, hpk] at h ⊢; exact ih h

theorem mem_erase {α : Type} (m : Dict α) (k : String) (p : String × α) :
    p ∈ erase m k → p ∈ m := by
  induction m with
  | nil => simp [erase]
  | cons q t ih =>
    by_cases hqk : q.1 = k
    · simp [erase, hqk]
      intro h; exact Or.inr (ih h)
    · simp [erase, hqk]
      rintro (h | h)
      · exact Or.inl h
      · exact Or.inr (ih h)

end Dict

/-- Claim C2: for every capacity C > 0 and count n, the occupancy status
published by the worker is a pure function of (n, C): overcrowded iff
n > C, warning iff 0.8 C < n and n ≤ C, and normal otherwise. -/
theorem occupancy_status_spec (n C : Nat) (hC : 0 < C) :
    (occupancy_status n C = "overcrowded" ↔ C < n) ∧
    (occupancy_status n C = "warning" ↔ 4 * C < 5 * n ∧ n ≤ C) ∧
    (occupancy_status n C = "normal" ↔ n ≤ C ∧ 5 * n ≤ 4 * C) := by
  refine ⟨?_, ?_, ?_⟩ <;> unfold occupancy_status <;>
    by_cases h1 : C < n <;> by_cases h2 : 4 * C < 5 * n <;>
      simp [h1, h2] <;> omega

/-- Witness for occupancy_status_spec at n = 180, C = 200 (the spec's own
boundary example: 0.8 * 200 = 160 < 180 ≤ 200, hence warning). -/
theorem occupancy_status_spec_witness :
    (0 < 200) ∧ occupancy_status 180 200 = "warning" :=
  ⟨by decide, ((occupancy_status_spec 180 200 (by decide)).2.1).mpr (by decide)⟩

theorem camera_worker_step_fail_lt (capacity : Nat) (detect : Nat → Nat) (s : WState)
    (hex : s.exited = false) (hlt : s.retry_count + 1 ≤ max_retries) :
    camera_worker_step capacity detect s ReadEvent.fail
      = { s with retry_count := s.retry_count + 1 } := by
  cases s with
  | mk rc fc det pub ex =>
    simp only at hex hlt
    subst hex
    simp only [camera_worker_step, Bool.false_eq_true, if_false]
    rw [if_neg (by omega : ¬ rc + 1 > max_retries)]

theorem camera_worker_step_fail_exceed (capacity : Nat) (detect : Nat → Nat) (s : WState)
    (hex : s.exited = false) (hgt : s.retry_count + 1 > max_retries) :
    camera_worker_step capacity detect s ReadEvent.fail
      = { retry_count := s.retry_count + 1, frame_count := s.frame_count,
          detections := s.detections,
          published := s.published ++ [disconnect_msg], exited := true } := by
  cases s with
  | mk rc fc det pub ex =>
    simp only at hex hgt
    subst hex
    simp only [camera_worker_step, Bool.false_eq_true, if_false]
    rw [if_pos hgt]

theorem camera_worker_run_fail_replicate (capacity : Nat) (detect : Nat → Nat) :
    ∀ (k : Nat) (s : WState), s.exited = false → s.retry_count + k ≤ max_retries →
      camera_worker_run capacity detect (List.replicate k ReadEvent.fail) s
        = { s with retry_count := s.retry_count + k } := by
  intro k
  induction k with
  | zero =>
    intro s hex _
    simp [camera_worker_run, List.replicate]
  | succ n ih =>
    intro s hex hle
    rw [List.replicate_succ]
    unfold camera_worker_run
    rw [List.foldl_cons]
    rw [camera_worker_step_fail_lt capacity detect s hex (by omega)]
    have h2 := ih { s with retry_count := s.retry_count + 1 } hex
      (show s.retry_count + 1 + n ≤ max_retries by omega)
    unfold camera_worker_run at h2
    rw [h2]
    have : s.retry_count + 1 + n = s.retry_count + (n + 1) := by omega
    simp [this]

/-- Claim C3: a run of consecutive read failures shorter than max_retries
does not terminate the worker loop; a run that makes the consecutive
failure count exceed max_retries publishes the terminal disconnected
message, whose error field is non-empty, and terminates; and a successful
read resets the retry counter to zero.  Source: app.py lines 241-271. -/
theorem camera_worker_retry_policy (capacity : Nat) (detect : Nat → Nat) (s : WState)
    (hex : s.exited = false) (hrc : s.retry_count = 0) :
    (∀ k, k < max_retries →
        (camera_worker_run capacity detect (List.replicate k ReadEvent.fail) s).exited = false) ∧
    ((camera_worker_run capacity detect (List.replicate (max_retries + 1) ReadEvent.fail) s).exited = true ∧
     (camera_worker_run capacity detect (List.replicate (max_retries + 1) ReadEvent.fail) s).published
        = s.published ++ [disconnect_msg] ∧
     disconnect_msg.status = "disconnected" ∧
     disconnect_msg.error = some "Camera stream disconnected. Please reconnect." ∧
     "Camera stream disconnected. Please reconnect." ≠ "") ∧
    (∀ s' : WState, s'.exited = false →
        (camera_worker_step capacity detect s' ReadEvent.ok).retry_count = 0) := by
  refine ⟨?_, ?_, ?_⟩
  · intro k hk
    rw [camera_worker_run_fail_replicate capacity detect k s hex (by omega)]
    exact hex
  · rw [List.replicate_succ']
    unfold camera_worker_run
    rw [List.foldl_append]
    have h10 := camera_worker_run_fail_replicate capacity detect max_retries s hex (by omega)
    unfold camera_worker_run at h10
    rw [h10, List.foldl_cons, List.foldl_nil]
    rw [camera_worker_step_fail_exceed capacity detect
      { s with retry_count := s.retry_count + max_retries } hex
      (show s.retry_count + max_retries + 1 > max_retries by omega)]
    refine ⟨rfl, rfl, rfl, rfl, by decide⟩
  · intro s' hex'
    cases s' with
    | mk rc fc det pub ex =>
      simp only at hex'
      subst hex'
      simp only [camera_worker_step, Bool.false_eq_true, if_false]
      by_cases hfc : (fc + 1) % PROCESS_EVERY_N_FRAMES = 0
      · rw [if_pos hfc]
      · rw [if_neg hfc]

/-- Witness for camera_worker_retry_policy: from a fresh worker state, nine
consecutive failed reads leave the loop running. -/
theorem camera_worker_retry_policy_witness :
    WState.start.exited = false ∧ WState.start.retry_count = 0 ∧
    (camera_worker_run 200 (fun _ => 0) (List.replicate 9 ReadEvent.fail) WState.start).exited = false :=
  ⟨rfl, rfl, (camera_worker_retry_policy 200 (fun _ => 0) WState.start rfl rfl).1 9 (by decide)⟩

theorem camera_worker_run_ok_replicate (capacity : Nat) (detect : Nat → Nat) :
    ∀ k : Nat,
      (camera_worker_run capacity detect (List.replicate k ReadEvent.ok) WState.start).frame_count = k ∧
      (camera_worker_run capacity detect (List.replicate k ReadEvent.ok) WState.start).detections = k / 2 ∧
      (camera_worker_run capacity detect (List.replicate k ReadEvent.ok) WState.start).exited = false := by
  intro k
  induction k with
  | zero => refine ⟨rfl, rfl, rfl⟩
  | succ n ih =>
    obtain ⟨hfc, hdet, hex⟩ := ih
    rw [List.replicate_succ']
    unfold camera_worker_run at *
    rw [List.foldl_append, List.foldl_cons, List.foldl_nil]
    set sn := List.foldl (camera_worker_step capacity detect) WState.start
      (List.replicate n ReadEvent.ok) with hsn
    cases hs : sn with
    | mk rc fc det pub ex =>
      rw [hs] at hfc hdet hex
      simp only at hfc hdet hex
      subst hfc hdet hex
      simp only [camera_worker_step, Bool.false_eq_true, if_false]
      by_cases hmod : (fc + 1) % PROCESS_EVERY_N_FRAMES = 0
      · rw [if_pos hmod]
        refine ⟨rfl, ?_, rfl⟩
        simp only [PROCESS_EVERY_N_FRAMES] at hmod
        simp only
        omega
      · rw [if_neg hmod]
        refine ⟨rfl, ?_, rfl⟩
        simp only [PROCESS_EVERY_N_FRAMES] at hmod
        simp only
        omega

/-- Claim C5 amended: from worker start, the first K consecutively
successfully-read frames produce exactly K / PROCESS_EVERY_N_FRAMES
detection calls (decimation factor 2); the intervening frames are read but
not forwarded to detection.  Source: app.py lines 272-285. -/
theorem frame_decimation_from_start (capacity : Nat) (detect : Nat → Nat) (K : Nat) :
    (camera_worker_run capacity detect (List.replicate K ReadEvent.ok) WState.start).detections
      = K / PROCESS_EVERY_N_FRAMES :=
  (camera_worker_run_ok_replicate capacity detect K).2.1

/-- Claim C5 counterexample: the claim quantifies over ANY window of K
consecutive successful reads.  The window consisting of the worker's
second frame alone (K = 1, taken after 1 prior successful read) contains
one detection call, not K / 2 = 0: detection fires on every even
frame_count, so the count of detections in a window depends on the
alignment of the window, not only on its length. -/
theorem frame_decimation_window_cex :
    (camera_worker_run 200 (fun _ => 7) [ReadEvent.ok, ReadEvent.ok] WState.start).detections
        - (camera_worker_run 200 (fun _ => 7) [ReadEvent.ok] WState.start).detections = 1 ∧
    (1 : Nat) / PROCESS_EVERY_N_FRAMES = 0 := by
  refine ⟨rfl, rfl⟩

/-- Claim C8: on every termination path of the camera_worker loop (session
deactivated, retries exhausted, or an uncaught exception inside the loop),
the finally block releases the capture handle that the worker registered
for its gate and removes the capture-handle bookkeeping entry, so no
worker exit leaves a capture handle registered for the gate.  The events
list ranges over all read outcomes, covering all three exit paths.
Source: app.py lines 240, 329-336. -/
theorem camera_worker_releases_capture (gate_id : String) (cap capacity : Nat)
    (detect : Nat → Nat) (events : List ReadEvent) (camera_captures : Dict Nat) :
    Dict.find (camera_worker_full_run gate_id cap capacity detect events camera_captures).2.1 gate_id = none ∧
    (camera_worker_full_run gate_id cap capacity detect events camera_captures).2.2 = [cap] := by
  have hfind := Dict.find_insert_self camera_captures gate_id cap
  constructor
  · show Dict.find (camera_captures_release gate_id (Dict.insert camera_captures gate_id cap) []).1 gate_id = none
    unfold camera_captures_release
    rw [hfind]
    exact Dict.find_erase_self _ _
  · show (camera_captures_release gate_id (Dict.insert camera_captures gate_id cap) []).2 = [cap]
    unfold camera_captures_release
    rw [hfind]
    rfl

theorem Dict.ne_of_mem_erase {α : Type} (m : Dict α) (k : String) (p : String × α)
    (h : p ∈ Dict.erase m k) : p.1 ≠ k := by
  induction m with
  | nil => simp [Dict.erase] at h
  | cons q t ih =>
    by_cases hqk : q.1 = k
    · rw [Dict.erase, if_pos hqk] at h
      exact ih h
    · rw [Dict.erase, if_neg hqk] at h
      rcases List.mem_cons.mp h with hh | hh
      · rw [hh]; exact hqk
      · exact ih hh

theorem teardown_gate_active (g : String) (j : Bool) (s : SState) :
    (teardown_gate g j s).active_cameras = Dict.erase s.active_cameras g := by
  show Dict.erase (Dict.insert s.active_cameras g false) g = Dict.erase s.active_cameras g
  exact Dict.erase_insert s.active_cameras g false

theorem disconnect_all_proj (join_ok : String → Bool) :
    ∀ (ks : List String) (s : SState),
      ((ks.foldl (fun st g => teardown_gate g (join_ok g) st) s).active_cameras
          = ks.foldl (fun m k => Dict.erase m k) s.active_cameras) ∧
      ((ks.foldl (fun st g => teardown_gate g (join_ok g) st) s).camera_queues
          = ks.foldl (fun m k => Dict.erase m k) s.camera_queues) ∧
      ((ks.foldl (fun st g => teardown_gate g (join_ok g) st) s).camera_threads
          = ks.foldl (fun m k => Dict.erase m k) s.camera_threads) ∧
      ((ks.foldl (fun st g => teardown_gate g (join_ok g) st) s).camera_captures
          = ks.foldl (fun m k => Dict.erase m k) s.camera_captures) ∧
      ((ks.foldl (fun st g => teardown_gate g (join_ok g) st) s).camera_last_update
          = ks.foldl (fun m k => Dict.erase m k) s.camera_last_update) := by
  intro ks
  induction ks with
  | nil => intro s; exact ⟨rfl, rfl, rfl, rfl, rfl⟩
  | cons k t ih =>
    intro s
    obtain ⟨h1, h2, h3, h4, h5⟩ := ih (teardown_gate k (join_ok k) s)
    refine ⟨?_, ?_, ?_, ?_, ?_⟩
    · rw [List.foldl_cons, List.foldl_cons, h1, teardown_gate_active]
    · rw [List.foldl_cons, List.foldl_cons, h2]; rfl
    · rw [List.foldl_cons, List.foldl_cons, h3]; rfl
    · rw [List.foldl_cons, List.foldl_cons, h4]; rfl
    · rw [List.foldl_cons, List.foldl_cons, h5]; rfl

theorem fold_erase_eq_nil {α : Type} :
    ∀ (ks : List String) (m : Dict α), (∀ p ∈ m, p.1 ∈ ks) →
      ks.foldl (fun m k => Dict.erase m k) m = [] := by
  intro ks
  induction ks with
  | nil =>
    intro m h
    cases m with
    | nil => rfl
    | cons p t => exact absurd (h p (List.mem_cons_self p t)) (by simp)
  | cons k t ih =>
    intro m h
    rw [List.foldl_cons]
    apply ih
    intro p hp
    have hpm := Dict.mem_erase m k p hp
    have hne := Dict.ne_of_mem_erase m k p hp
    rcases List.mem_cons.mp (h p hpm) with hh | hh
    · exact absurd hh hne
    · exact hh

/-- Claim C6: disconnect_camera with gate_id = "all" leaves all five
per-gate bookkeeping dicts empty, for every join outcome (a worker that
fails to join within its timeout does not prevent removal).  The
hypotheses state that every bookkeeping key is a key of active_cameras,
which is how connect_camera and the health monitor populate the dicts
(they always install the active flag together with the other entries). -/
theorem disconnect_all_empties_bookkeeping (join_ok : String → Bool) (s : SState)
    (hq : ∀ p ∈ s.camera_queues, p.1 ∈ Dict.keys s.active_cameras)
    (ht : ∀ p ∈ s.camera_threads, p.1 ∈ Dict.keys s.active_cameras)
    (hc : ∀ p ∈ s.camera_captures, p.1 ∈ Dict.keys s.active_cameras)
    (hl : ∀ p ∈ s.camera_last_update, p.1 ∈ Dict.keys s.active_cameras) :
    (disconnect_camera_all join_ok s).active_cameras = [] ∧
    (disconnect_camera_all join_ok s).camera_queues = [] ∧
    (disconnect_camera_all join_ok s).camera_threads = [] ∧
    (disconnect_camera_all join_ok s).camera_captures = [] ∧
    (disconnect_camera_all join_ok s).camera_last_update = [] := by
  obtain ⟨h1, h2, h3, h4, h5⟩ := disconnect_all_proj join_ok (Dict.keys s.active_cameras) s
  unfold disconnect_camera_all
  rw [h1, h2, h3, h4, h5]
  refine ⟨fold_erase_eq_nil _ _ ?_, fold_erase_eq_nil _ _ hq,
    fold_erase_eq_nil _ _ ht, fold_erase_eq_nil _ _ hc, fold_erase_eq_nil _ _ hl⟩
  intro p hp
  exact List.mem_map_of_mem Prod.fst hp

/-- A state with one fully populated gate session. -/
def one_gate_state : SState :=
  ⟨[("A", true)], [("A", [])], [("A", 7)], [("A", 3)], [("A", 5)], []⟩

/-- Witness for disconnect_all_empties_bookkeeping, with a join outcome
that reports the worker did not join in time. -/
theorem disconnect_all_empties_bookkeeping_witness :
    (∀ p ∈ one_gate_state.camera_queues, p.1 ∈ Dict.keys one_gate_state.active_cameras) ∧
    (disconnect_camera_all (fun _ => false) one_gate_state).active_cameras = [] ∧
    (disconnect_camera_all (fun _ => false) one_gate_state).camera_queues = [] :=
  ⟨by decide,
   (disconnect_all_empties_bookkeeping (fun _ => false) one_gate_state
      (by decide) (by decide) (by decide) (by decide)).1,
   (disconnect_all_empties_bookkeeping (fun _ => false) one_gate_state
      (by decide) (by decide) (by decide) (by decide)).2.1⟩

/-- Claim C10: disconnecting a single gate leaves every other gate's five
bookkeeping entries unchanged, and leaves the mobile_devices registry
entirely unchanged (including the disconnected gate's registration). -/
theorem disconnect_single_other_gates_unchanged (g g' : String) (join_ok : Bool)
    (s : SState) (h : g' ≠ g) :
    Dict.find (disconnect_camera_single g join_ok s).active_cameras g'
        = Dict.find s.active_cameras g' ∧
    Dict.find (disconnect_camera_single g join_ok s).camera_queues g'
        = Dict.find s.camera_queues g' ∧
    Dict.find (disconnect_camera_single g join_ok s).camera_threads g'
        = Dict.find s.camera_threads g' ∧
    Dict.find (disconnect_camera_single g join_ok s).camera_captures g'
        = Dict.find s.camera_captures g' ∧
    Dict.find (disconnect_camera_single g join_ok s).camera_last_update g'
        = Dict.find s.camera_last_update g' ∧
    (disconnect_camera_single g join_ok s).mobile_devices = s.mobile_devices := by
  unfold disconnect_camera_single
  by_cases hg : (Dict.find s.active_cameras g).isSome
  · rw [if_pos hg]
    refine ⟨?_, ?_, ?_, ?_, ?_, rfl⟩
    · show Dict.find (Dict.erase (Dict.insert s.active_cameras g false) g) g'
          = Dict.find s.active_cameras g'
      rw [Dict.erase_insert]
      exact Dict.find_erase_ne s.active_cameras g g' h
    · exact Dict.find_erase_ne s.camera_queues g g' h
    · exact Dict.find_erase_ne s.camera_threads g g' h
    · exact Dict.find_erase_ne s.camera_captures g g' h
    · exact Dict.find_erase_ne s.camera_last_update g g' h
  · rw [if_neg hg]
    exact ⟨rfl, rfl, rfl, rfl, rfl, rfl⟩

/-- Witness for disconnect_single_other_gates_unchanged at gates A, B. -/
theorem disconnect_single_other_gates_unchanged_witness :
    ("B" : String) ≠ "A" ∧
    Dict.find (disconnect_camera_single "A" false one_gate_state).active_cameras "B"
        = Dict.find one_gate_state.active_cameras "B" :=
  ⟨by decide,
   (disconnect_single_other_gates_unchanged "A" "B" false one_gate_state (by decide)).1⟩

theorem health_step_fires (now t : Nat) (s : SState) (r : Nat) (g : String)
    (hact : Dict.find s.active_cameras g = some true)
    (hq : Dict.find s.camera_queues g = some [])
    (hlu : Dict.find s.camera_last_update g = some t)
    (hstale : 10 < now - t) :
    check_mobile_camera_health_step now (s, r) g =
      ({ s with active_cameras := Dict.insert (Dict.insert s.active_cameras g false) g true,
                camera_queues := Dict.insert s.camera_queues g [],
                camera_threads := Dict.insert s.camera_threads g r }, r + 1) := by
  simp [check_mobile_camera_health_step, hact, hq, hlu, stale_at, hstale]

theorem health_pass_fires (now t : Nat) (s : SState) (g : String)
    (hkeys : Dict.keys s.mobile_devices = [g])
    (hact : Dict.find s.active_cameras g = some true)
    (hq : Dict.find s.camera_queues g = some [])
    (hlu : Dict.find s.camera_last_update g = some t)
    (hstale : 10 < now - t) :
    (check_mobile_camera_health_pass now s).2 = 1 ∧
    (check_mobile_camera_health_pass now s).1.mobile_devices = s.mobile_devices ∧
    Dict.find (check_mobile_camera_health_pass now s).1.active_cameras g = some true ∧
    Dict.find (check_mobile_camera_health_pass now s).1.camera_queues g = some [] ∧
    (check_mobile_camera_health_pass now s).1.camera_last_update = s.camera_last_update := by
  have hstep := health_step_fires now t s 0 g hact hq hlu hstale
  unfold check_mobile_camera_health_pass
  rw [hkeys, List.foldl_cons, List.foldl_nil, hstep]
  refine ⟨rfl, rfl, ?_, ?_, rfl⟩
  · exact Dict.find_insert_self _ _ _
  · exact Dict.find_insert_self _ _ _

/-- Claim C4 counterexample: gate A has an active mobile session, an
empty queue and last update at time 0.  The monitor pass at time 11
performs a restart; the consecutive pass at time 16, before the fresh
worker has published anything (the queue the restart installed is still
empty), performs a second restart, because the restart path never
refreshes camera_last_update.  This contradicts the claim that
consecutive passes do not trigger duplicate restarts before the new
worker has had a chance to publish. -/
theorem health_monitor_duplicate_restart_cex :
    (check_mobile_camera_health_pass 11 stale_mobile_state).2 = 1 ∧
    (check_mobile_camera_health_pass 16
        (check_mobile_camera_health_pass 11 stale_mobile_state).1).2 = 1 := by
  exact ⟨by decide, by decide⟩

/-- Claim C4 amended: one monitor pass over a stale mobile session (active
flag set, channel present and empty, last publish older than the 10 s
threshold) triggers exactly one restart; but a consecutive pass triggers
another restart whenever the fresh worker has still not published and no
status query has intervened, because the restart path leaves
camera_last_update unchanged.  Duplicate restarts are only prevented once
the new worker publishes (making the channel non-empty) or a status query
refreshes the timestamp. -/
theorem health_monitor_restart_behavior (now now2 t : Nat) (s : SState) (g : String)
    (hkeys : Dict.keys s.mobile_devices = [g])
    (hact : Dict.find s.active_cameras g = some true)
    (hq : Dict.find s.camera_queues g = some [])
    (hlu : Dict.find s.camera_last_update g = some t)
    (hstale : 10 < now - t) (hstale2 : 10 < now2 - t) :
    (check_mobile_camera_health_pass now s).2 = 1 ∧
    Dict.find (check_mobile_camera_health_pass now s).1.camera_last_update g = some t ∧
    (check_mobile_camera_health_pass now2 (check_mobile_camera_health_pass now s).1).2 = 1 := by
  obtain ⟨h1, hmob, hact1, hq1, hlu1⟩ := health_pass_fires now t s g hkeys hact hq hlu hstale
  refine ⟨h1, ?_, ?_⟩
  · rw [hlu1]; exact hlu
  · have hkeys1 : Dict.keys (check_mobile_camera_health_pass now s).1.mobile_devices = [g] := by
      rw [hmob]; exact hkeys
    have hlu1' : Dict.find (check_mobile_camera_health_pass now s).1.camera_last_update g
        = some t := by
      rw [hlu1]; exact hlu
    exact (health_pass_fires now2 t _ g hkeys1 hact1 hq1 hlu1' hstale2).1

/-- Witness for health_monitor_restart_behavior on the concrete stale
state at times 11 and 16. -/
theorem health_monitor_restart_behavior_witness :
    Dict.keys stale_mobile_state.mobile_devices = ["A"] ∧
    (check_mobile_camera_health_pass 11 stale_mobile_state).2 = 1 :=
  ⟨by decide,
   (health_monitor_restart_behavior 11 16 0 stale_mobile_state "A"
      (by decide) (by decide) (by decide) (by decide) (by decide) (by decide)).1⟩

theorem status_entry_base_congr (g : String) (s s' : SState)
    (hA : s'.active_cameras = s.active_cameras)
    (hM : s'.mobile_devices = s.mobile_devices) :
    status_entry_base g s' = status_entry_base g s := by
  unfold status_entry_base
  rw [hA, hM]

theorem gcs_step_temple (now : Nat) (acc : Dict StatusEntry × SState) :
    get_camera_status_step now acc "Temple" = acc := by
  simp [get_camera_status_step]

theorem gcs_step_shape (now : Nat) (es : Dict StatusEntry) (s : SState) (g : String)
    (hT : g ≠ "Temple") :
    ∃ e s', get_camera_status_step now (es, s) g = (es ++ [(g, e)], s')
      ∧ s'.active_cameras = s.active_cameras
      ∧ s'.mobile_devices = s.mobile_devices := by
  unfold get_camera_status_step
  rw [if_neg hT]
  rcases hfind : Dict.find s.camera_queues g with _ | q
  · exact ⟨status_entry_base g s, s, by simp [hfind], rfl, rfl⟩
  · cases q with
    | nil => exact ⟨status_entry_base g s, s, by simp [hfind], rfl, rfl⟩
    | cons msg rest =>
        exact ⟨{ status_entry_base g s with
                 count := msg.count, status := msg.status,
                 frame := msg.frame.getD "",
                 timestamp := some (msg.timestamp.getD now),
                 error := msg.error.getD "",
                 is_mobile := some (msg.is_mobile.getD false) },
               { s with camera_queues := Dict.insert s.camera_queues g rest,
                        camera_last_update := Dict.insert s.camera_last_update g now },
               by simp [hfind], rfl, rfl⟩

theorem gcs_step_queue_at (now : Nat) (es : Dict StatusEntry) (s : SState) (g h : String)
    (hq : queue_absent_or_empty s g) :
    Dict.find (get_camera_status_step now (es, s) h).2.camera_queues g
      = Dict.find s.camera_queues g := by
  by_cases hT : h = "Temple"
  · rw [hT, gcs_step_temple]
  · unfold get_camera_status_step
    rw [if_neg hT]
    rcases hfind : Dict.find s.camera_queues h with _ | q
    · simp [hfind]
    · cases q with
      | nil => simp [hfind]
      | cons msg rest =>
          by_cases hgh : h = g
          · subst hgh
            rcases hq with hq | hq <;> rw [hq] at hfind <;> simp at hfind
          · simp [hfind]
            exact Dict.find_insert_ne s.camera_queues h g rest (fun hh => hgh hh.symm)

theorem gcs_fold_state (now : Nat) :
    ∀ (ks : List String) (es : Dict StatusEntry) (s : SState),
      (get_camera_status_fold now ks (es, s)).2.active_cameras = s.active_cameras ∧
      (get_camera_status_fold now ks (es, s)).2.mobile_devices = s.mobile_devices := by
  intro ks
  induction ks with
  | nil => intro es s; exact ⟨rfl, rfl⟩
  | cons h t ih =>
    intro es s
    unfold get_camera_status_fold at *
    rw [List.foldl_cons]
    by_cases hT : h = "Temple"
    · rw [hT, gcs_step_temple]; exact ih es s
    · obtain ⟨e, s', hstep, hA, hM⟩ := gcs_step_shape now es s h hT
      rw [hstep]
      obtain ⟨ihA, ihM⟩ := ih (es ++ [(h, e)]) s'
      exact ⟨ihA.trans hA, ihM.trans hM⟩

theorem gcs_fold_queue_at (now : Nat) (g : String) :
    ∀ (ks : List String) (es : Dict StatusEntry) (s : SState),
      queue_absent_or_empty s g →
      Dict.find (get_camera_status_fold now ks (es, s)).2.camera_queues g
        = Dict.find s.camera_queues g := by
  intro ks
  induction ks with
  | nil => intro es s _; rfl
  | cons h t ih =>
    intro es s hq
    unfold get_camera_status_fold at *
    rw [List.foldl_cons]
    have hstep := gcs_step_queue_at now es s g h hq
    have hq' : queue_absent_or_empty (get_camera_status_step now (es, s) h).2 g := by
      unfold queue_absent_or_empty at *
      rw [hstep]; exact hq
    rw [show get_camera_status_step now (es, s) h
        = ((get_camera_status_step now (es, s) h).1,
           (get_camera_status_step now (es, s) h).2) from rfl]
    rw [ih (get_camera_status_step now (es, s) h).1
        (get_camera_status_step now (es, s) h).2 hq']
    exact hstep

theorem gcs_fold_find_mono (now : Nat) :
    ∀ (ks : List String) (es : Dict StatusEntry) (s : SState) (g : String) (e : StatusEntry),
      Dict.find es g = some e →
      Dict.find (get_camera_status_fold now ks (es, s)).1 g = some e := by
  intro ks
  induction ks with
  | nil => intro es s g e h; exact h
  | cons h t ih =>
    intro es s g e hfind
    unfold get_camera_status_fold at *
    rw [List.foldl_cons]
    by_cases hT : h = "Temple"
    · rw [hT, gcs_step_temple]; exact ih es s g e hfind
    · obtain ⟨e', s', hstep, _, _⟩ := gcs_step_shape now es s h hT
      rw [hstep]
      exact ih _ _ g e (Dict.find_append_left es [(h, e')] g e hfind)

theorem gcs_fold_entry (now : Nat) :
    ∀ (ks : List String) (es : Dict StatusEntry) (s : SState) (g : String),
      g ∈ ks → g ≠ "Temple" → queue_absent_or_empty s g → Dict.find es g = none →
      Dict.find (get_camera_status_fold now ks (es, s)).1 g
        = some (status_entry_base g s) := by
  intro ks
  induction ks with
  | nil => intro es s g hg; exact absurd hg (by simp)
  | cons h t ih =>
    intro es s g hg hT hq hnone
    unfold get_camera_status_fold at *
    rw [List.foldl_cons]
    by_cases hTh : h = "Temple"
    · rw [hTh, gcs_step_temple]
      have hgt : g ∈ t := by
        rcases List.mem_cons.mp hg with hh | hh
        · exact absurd (hh.trans hTh) hT
        · exact hh
      exact ih es s g hgt hT hq hnone
    · by_cases hgh : h = g
      · subst hgh
        have hstep : get_camera_status_step now (es, s) h
            = (es ++ [(h, status_entry_base h s)], s) := by
          unfold get_camera_status_step
          rw [if_neg hTh]
          rcases hq with hq | hq
          · simp [hq]
          · simp [hq]
        rw [hstep]
        refine gcs_fold_find_mono now t _ s h (status_entry_base h s) ?_
        rw [Dict.find_append_right es [(h, status_entry_base h s)] h hnone]
        simp [Dict.find]
      · obtain ⟨e', s', hstep, hA, hM⟩ := gcs_step_shape now es s h hTh
        have hquv := gcs_step_queue_at now es s g h hq
        rw [hstep] at hquv
        have hq' : queue_absent_or_empty s' g := by
          unfold queue_absent_or_empty at *
          rw [hquv]; exact hq
        have hnone' : Dict.find (es ++ [(h, e')]) g = none := by
          rw [Dict.find_append_right es [(h, e')] g hnone]
          simp [Dict.find, hgh]
        have hgt : g ∈ t := by
          rcases List.mem_cons.mp hg with hh | hh
          · exact absurd hh.symm hgh
          · exact hh
        rw [hstep]
        rw [ih (es ++ [(h, e')]) s' g hgt hT hq' hnone']
        rw [status_entry_base_congr g s s' hA hM]

theorem gcs_fold_keys (now : Nat) :
    ∀ (ks : List String) (es : Dict StatusEntry) (s : SState),
      Dict.keys (get_camera_status_fold now ks (es, s)).1
        = Dict.keys es ++ ks.filter (fun g => decide (g ≠ "Temple")) := by
  intro ks
  induction ks with
  | nil => intro es s; simp [get_camera_status_fold]
  | cons h t ih =>
    intro es s
    unfold get_camera_status_fold at *
    rw [List.foldl_cons]
    by_cases hT : h = "Temple"
    · rw [hT, gcs_step_temple, ih es s]
      simp [List.filter_cons]
    · obtain ⟨e, s', hstep, _, _⟩ := gcs_step_shape now es s h hT
      rw [hstep, ih (es ++ [(h, e)]) s']
      simp [Dict.keys, List.filter_cons, hT]

/-- Claim C9: the status endpoint never reports the Temple gate: for every
shared state, the returned object has no entry for Temple although Temple
is present in GATE_CONFIG, and it has an entry for every other configured
gate. -/
theorem get_camera_status_omits_temple (now : Nat) (s : SState) :
    ("Temple", (1000 : Nat)) ∈ GATE_CONFIG.map (fun p => (p.1, p.2.capacity)) ∧
    Dict.find (get_camera_status now s).1 "Temple" = none ∧
    ∀ g, g ∈ gate_keys → g ≠ "Temple" →
      (Dict.find (get_camera_status now s).1 g).isSome = true := by
  have hkeys := gcs_fold_keys now gate_keys [] s
  refine ⟨by decide, ?_, ?_⟩
  · apply Dict.find_eq_none_of_not_mem_keys
    unfold get_camera_status
    rw [hkeys]
    decide
  · intro g hg hT
    apply Dict.isSome_find_of_mem_keys
    unfold get_camera_status
    rw [hkeys]
    simp only [Dict.keys, List.map_nil, List.nil_append]
    rw [List.mem_filter]
    exact ⟨hg, by simp [hT]⟩

/-- Witness for get_camera_status_omits_temple at gate A on the start
state. -/
theorem get_camera_status_omits_temple_witness :
    ("A" : String) ∈ gate_keys ∧
    (Dict.find (get_camera_status 0 SState.start).1 "A").isSome = true :=
  ⟨by decide, (get_camera_status_omits_temple 0 SState.start).2.2 "A" (by decide) (by decide)⟩

/-- Claim C7 counterexample: for a truly unknown gate id (one not present
in GATE_CONFIG, here "Z"), the status object contains no entry at all -
it does not contain a default count-0 disconnected entry as the claim
states.  The same holds for the configured gate Temple. -/
theorem get_camera_status_unknown_gate_cex :
    Dict.find (get_camera_status 0 SState.start).1 "Z" = none ∧
    Dict.find (get_camera_status 0 SState.start).1 "Temple" = none := by
  exact ⟨by decide, by decide⟩

/-- Claim C7 amended: for every CONFIGURED gate other than Temple that has
no drainable published result (its Result Channel is absent or empty -
covering never-connected gates and gates whose worker has not published),
the status entry is the default: count 0, status disconnected, empty
preview frame, empty error; and a repeated call in that state returns the
identical entry for that gate (idempotent read of absence).  A gate id
outside GATE_CONFIG gets no entry at all. -/
theorem get_camera_status_absent_default (now now2 : Nat) (s : SState) (g : String)
    (hg : g ∈ gate_keys) (hT : g ≠ "Temple") (hq : queue_absent_or_empty s g) :
    Dict.find (get_camera_status now s).1 g = some (status_entry_base g s) ∧
    (status_entry_base g s).count = 0 ∧
    (status_entry_base g s).status = "disconnected" ∧
    (status_entry_base g s).frame = "" ∧
    (status_entry_base g s).error = "" ∧
    Dict.find (get_camera_status now2 (get_camera_status now s).2).1 g
      = Dict.find (get_camera_status now s).1 g := by
  have h1 : Dict.find (get_camera_status now s).1 g = some (status_entry_base g s) :=
    gcs_fold_entry now gate_keys [] s g hg hT hq rfl
  refine ⟨h1, rfl, rfl, rfl, rfl, ?_⟩
  have hq1 : queue_absent_or_empty (get_camera_status now s).2 g := by
    unfold queue_absent_or_empty at *
    unfold get_camera_status
    rw [gcs_fold_queue_at now g gate_keys [] s hq]
    exact hq
  obtain ⟨hA, hM⟩ := gcs_fold_state now gate_keys [] s
  have h2 : Dict.find (get_camera_status now2 (get_camera_status now s).2).1 g
      = some (status_entry_base g (get_camera_status now s).2) := by
    have := gcs_fold_entry now2 gate_keys [] (get_camera_status now s).2 g hg hT hq1 rfl
    exact this
  rw [h2, h1, status_entry_base_congr g s (get_camera_status now s).2 hA hM]

/-- Witness for get_camera_status_absent_default at gate A on the start
state. -/
theorem get_camera_status_absent_default_witness :
    ("A" : String) ∈ gate_keys ∧
    Dict.find (get_camera_status 0 SState.start).1 "A"
      = some (status_entry_base "A" SState.start) :=
  ⟨by decide,
   (get_camera_status_absent_default 0 1 SState.start "A"
      (by decide) (by decide) (Or.inl rfl)).1⟩

/-- Claim C1 counterexample: Connect spawns worker 0, worker 0 passes the
loop condition and is then blocked inside the read/process body while the
second Connect runs both halves (the 2 s join times out because worker 0
never gets scheduled in between).  After the second connect completes its
teardown handshake there are TWO live workers for the gate, not one; and
when the stale worker then publishes, its publication lands in the NEW
session queue (camera_queues[gate_id] is looked up at put time), so a
status query drains a result of the stale worker 0, not of the new worker
1. -/
theorem connect_connect_stale_worker_cex :
    live_workers (conn_exec [ConnAct.cbegin, ConnAct.cfinish, ConnAct.wstep 0,
        ConnAct.cbegin, ConnAct.cfinish] conn_start) = 2 ∧
    status_drain (conn_exec [ConnAct.cbegin, ConnAct.cfinish, ConnAct.wstep 0,
        ConnAct.cbegin, ConnAct.cfinish, ConnAct.wstep 0] conn_start) = some 0 := by
  exact ⟨by decide, by decide⟩

theorem conn_isolated_s_joined : conn_isolated s_joined := by
  refine ⟨rfl, rfl, ⟨WPc.checking, by decide, rfl⟩, ⟨[], by simp, rfl⟩⟩

theorem conn_isolated_step (s : ConnSys) (i : Nat) (h : conn_isolated s) :
    conn_isolated (worker_thread_step s i) := by
  obtain ⟨hact, hnid, ⟨p, hp, hws⟩, ⟨q, hq, hqs⟩⟩ := h
  by_cases h0 : i = 0
  · subst h0
    have hstep : worker_thread_step s 0 = s := by
      unfold worker_thread_step
      rw [hws]
      simp [List.find?]
    rw [hstep]
    exact ⟨hact, hnid, ⟨p, hp, hws⟩, ⟨q, hq, hqs⟩⟩
  · by_cases h1 : i = 1
    · subst h1
      have hfind : (([⟨0, WPc.done⟩, ⟨1, p⟩] : List CWorker).find? (fun w => w.wid == 1))
          = some ⟨1, p⟩ := by
        simp [List.find?]
      unfold worker_thread_step
      rw [hws, hfind]
      cases p with
      | done => exact absurd rfl hp
      | checking =>
          rw [hact]
          refine ⟨rfl, hnid, ⟨WPc.publishing, by decide, ?_⟩, ⟨q, hq, hqs⟩⟩
          show set_pc 1 WPc.publishing [⟨0, WPc.done⟩, ⟨1, WPc.checking⟩]
              = [⟨0, WPc.done⟩, ⟨1, WPc.publishing⟩]
          decide
      | publishing =>
          refine ⟨hact, hnid, ⟨WPc.checking, by decide, ?_⟩,
            ⟨q ++ [1], ?_, ?_⟩⟩
          · show set_pc 1 WPc.checking [⟨0, WPc.done⟩, ⟨1, WPc.publishing⟩]
                = [⟨0, WPc.done⟩, ⟨1, WPc.checking⟩]
            decide
          · intro x hx
            rcases List.mem_append.mp hx with hx | hx
            · exact hq x hx
            · simpa using hx
          · show append_to_current s.queues 1 = [[0], q ++ [1]]
            rw [hqs]
            simp [append_to_current]
    · have e0 : ((0 : Nat) == i) = false := beq_eq_false_iff_ne.mpr (fun hh => h0 hh.symm)
      have e1 : ((1 : Nat) == i) = false := beq_eq_false_iff_ne.mpr (fun hh => h1 hh.symm)
      have hfind : (([⟨0, WPc.done⟩, ⟨1, p⟩] : List CWorker).find? (fun w => w.wid == i))
          = none := by
        simp [List.find?, e0, e1]
      have hstep : worker_thread_step s i = s := by
        unfold worker_thread_step
        rw [hws, hfind]
      rw [hstep]
      exact ⟨hact, hnid, ⟨p, hp, hws⟩, ⟨q, hq, hqs⟩⟩

theorem conn_isolated_exec (ws : List Nat) :
    ∀ s : ConnSys, conn_isolated s →
      conn_isolated (conn_exec (ws.map ConnAct.wstep) s) := by
  induction ws with
  | nil => intro s h; exact h
  | cons w t ih =>
    intro s h
    rw [List.map_cons]
    unfold conn_exec at *
    rw [List.foldl_cons]
    exact ih (worker_thread_step s w) (conn_isolated_step s w h)

/-- Claim C1 amended: when the second connect's teardown handshake
actually succeeds - the old worker observes the cleared active flag and
returns inside the join window, as in the s_joined trace - then however
the threads are scheduled afterwards, exactly one live worker remains for
the gate, the current Result Channel only ever holds publications of the
new worker (the stale publication stays behind in the replaced queue
object), and a status query can never drain a result of the stale worker.
If instead the join times out with the old worker still inside the loop
body, the old worker stays live alongside the new one (it can even
re-observe the re-set active flag and keep running) and can publish into
the new queue, as connect_connect_stale_worker_cex shows. -/
theorem connect_teardown_joined_isolation (later : List Nat) :
    live_workers (conn_exec (later.map ConnAct.wstep) s_joined) = 1 ∧
    (∀ x ∈ current_queue (conn_exec (later.map ConnAct.wstep) s_joined), x = 1) ∧
    status_drain (conn_exec (later.map ConnAct.wstep) s_joined) ≠ some 0 := by
  obtain ⟨hact, hnid, ⟨p, hp, hws⟩, ⟨q, hq, hqs⟩⟩ :=
    conn_isolated_exec later s_joined conn_isolated_s_joined
  have hcq : current_queue (conn_exec (later.map ConnAct.wstep) s_joined) = q := by
    unfold current_queue
    rw [hqs]
    rfl
  refine ⟨?_, ?_, ?_⟩
  · unfold live_workers
    rw [hws]
    cases p with
    | done => exact absurd rfl hp
    | checking => decide
    | publishing => decide
  · intro x hx
    rw [hcq] at hx
    exact hq x hx
  · unfold status_drain
    rw [hcq]
    cases q with
    | nil => simp
    | cons a t =>
        have ha : a = 1 := hq a (List.mem_cons_self a t)
        simp [ha]

/-- Witness for connect_teardown_joined_isolation: one further scheduler
step of the new worker keeps exactly one live worker. -/
theorem connect_teardown_joined_isolation_witness :
    live_workers (conn_exec ([1].map ConnAct.wstep) s_joined) = 1 :=
  (connect_teardown_joined_isolation [1]).1
